import Mathlib

/-! Verification of the GUARDIAN risk-decision engine.

Shallow embedding of the core scoring / decision / evacuation logic of
`GUARDIAN/agents/specialized/swapguard_agent.py` and
`GUARDIAN/agents/specialized/evacuator_agent.py`.

Modelling conventions:
- Python floats are modelled as rationals (the claims' thresholds are far from
  any rounding boundary, so real-number semantics decide them the same way);
- wall-clock time is modelled as seconds (Nat); the 5-minute cache TTL is 300;
- the dictionaries returned by the external signal sources are modelled as
  structures of Option fields, and the Python dict.get defaults are applied
  with Option.getD at the use sites, exactly where the source applies them;
- exceptions raised while gathering signals are modelled by an Except input
  (the source catches them in the try/except of _analyze_token);
- in-place mutation of a cached TokenAnalysis (the warnings.append performed
  by _make_decision) is modelled by explicit state passing: make_decision
  returns the updated analysis next to the decision, and evaluate_swap writes
  it back into the cache, mirroring Python reference aliasing;
- numeric string formatting (f-string :.0f / :.1f) is abstracted by fmt
  helpers; no claim depends on the rendered digits.
-/

namespace Guardian

/-- Risk levels for swap operations (enum SwapRisk). -/
inductive SwapRisk where
  | safe
  | low
  | medium
  | high
  | critical
  | blocked
  deriving DecidableEq, Repr

/-- Actions the agent can take on swaps (enum SwapAction). -/
inductive SwapAction where
  | approve
  | warn
  | limit
  | reject
  | require_confirm
  deriving DecidableEq, Repr

/-- Result dictionary of the Jupiter liquidity probe, as consumed by
_analyze_token via dict.get; absent keys are none. -/
structure LiquidityData where
  estimated_liquidity_usd : Option ℚ
  price_impact_buy : Option ℚ
  can_buy : Option Bool
  can_sell : Option Bool
  deriving DecidableEq, Repr

/-- Token metadata dictionary, as consumed by _analyze_token via dict.get. -/
structure TokenInfo where
  name : Option String
  mint_authority_enabled : Option Bool
  freeze_authority_enabled : Option Bool
  verified : Option Bool
  age_hours : Option ℚ
  holder_count : Option ℕ
  top_holder_pct : Option ℚ
  has_social : Option Bool
  deriving DecidableEq, Repr

/-- Complete token risk analysis (dataclass TokenAnalysis). -/
structure TokenAnalysis where
  mint : String
  symbol : String
  name : String
  overall_risk : ℚ
  honeypot_risk : ℚ
  rugpull_risk : ℚ
  liquidity_risk : ℚ
  concentration_risk : ℚ
  is_honeypot : Bool
  is_blacklisted : Bool
  has_mint_authority : Bool
  has_freeze_authority : Bool
  is_verified : Bool
  liquidity_usd : ℚ
  price_impact_1sol : ℚ
  can_sell : Bool
  top_holder_pct : ℚ
  holder_count : ℕ
  has_social : Bool
  age_hours : ℚ
  warnings : List String
  risk_level : SwapRisk
  recommended_action : SwapAction
  max_safe_amount_sol : ℚ
  deriving DecidableEq, Repr

/-- Incoming swap request (dataclass SwapRequest); the timestamp field is
never read by the decision path and is omitted. -/
structure SwapRequest where
  id : String
  user_wallet : String
  input_mint : String
  output_mint : String
  input_amount : ℚ
  input_symbol : String
  output_symbol : String
  slippage_bps : ℤ
  deriving DecidableEq, Repr

/-- Safe swap parameter dictionary built by _make_decision (which also sets
max_accounts) and by _approve_swap (which does not). -/
structure SafeSwapParams where
  input_mint : String
  output_mint : String
  amount : ℚ
  slippage_bps : ℤ
  max_accounts : Option ℤ
  deriving DecidableEq, Repr

/-- Agent decision on a swap request (dataclass SwapDecision). -/
structure SwapDecision where
  request_id : String
  action : SwapAction
  risk_level : SwapRisk
  token_analysis : Option TokenAnalysis
  recommended_slippage_bps : ℤ
  max_safe_amount : ℚ
  warnings : List String
  safe_swap_params : Option SafeSwapParams
  reasoning : String
  confidence : ℚ
  deriving DecidableEq, Repr

/-- Threshold self.thresholds["safe_max_risk"]. -/
def safe_max_risk : ℚ := 20

/-- Threshold self.thresholds["low_max_risk"]. -/
def low_max_risk : ℚ := 40

/-- Threshold self.thresholds["medium_max_risk"]. -/
def medium_max_risk : ℚ := 60

/-- Threshold self.thresholds["high_max_risk"]. -/
def high_max_risk : ℚ := 80

/-- Threshold self.thresholds["min_liquidity_usd"]. -/
def min_liquidity_usd : ℚ := 1000

/-- Threshold self.thresholds["max_price_impact_pct"]. -/
def max_price_impact_pct : ℚ := 10

/-- Position limits per risk tier (self.position_limits, all six keys). -/
def position_limits : SwapRisk → ℚ
  | .safe => 100
  | .low => 10
  | .medium => 2
  | .high => 1/2
  | .critical => 0
  | .blocked => 0

/-- Slippage recommendations per risk tier (self.slippage_recommendations);
the dict has no entry for BLOCKED, callers use .get(risk_level, 100). -/
def slippage_recommendations : SwapRisk → Option ℤ
  | .safe => some 50
  | .low => some 100
  | .medium => some 200
  | .high => some 500
  | .critical => some 1000
  | .blocked => none

/-- Abstraction of Python f-string formatting with :.0f. -/
def fmt0 (x : ℚ) : String := toString (round x)

/-- Abstraction of Python f-string formatting with :.1f. -/
def fmt1 (x : ℚ) : String :=
  toString (round (x * 10) / 10) ++ "." ++ toString ((round (x * 10)) % 10)

/-- Abstraction of Python str() on a float. -/
def fmtQ (x : ℚ) : String := toString x

/-- Warning emitted when a honeypot is detected. -/
def honeypot_warning : String := "🚨 HONEYPOT DETECTED: Cannot sell this token!"

/-- Warning for liquidity below min_liquidity_usd. -/
def very_low_liquidity_warning (u : ℚ) : String :=
  "⚠️ Very low liquidity: $" ++ fmt0 u

/-- Warning for liquidity below 10000. -/
def low_liquidity_warning (u : ℚ) : String :=
  "⚠️ Low liquidity: $" ++ fmt0 u

/-- Warning for excessive price impact. -/
def high_impact_warning (p : ℚ) : String :=
  "⚠️ High price impact: " ++ fmt1 p ++ "%"

/-- Warning when no liquidity data could be fetched. -/
def no_liquidity_warning : String :=
  "⚠️ Unable to verify liquidity - token may not be tradeable"

/-- Warning for an enabled mint authority. -/
def mint_authority_warning : String :=
  "⚠️ Mint authority enabled - team can create unlimited tokens"

/-- Warning for an enabled freeze authority. -/
def freeze_authority_warning : String :=
  "⚠️ Freeze authority enabled - your tokens could be frozen"

/-- Warning for a token younger than 24 hours. -/
def very_new_token_warning (age : ℚ) : String :=
  "⚠️ Very new token: " ++ fmt1 age ++ " hours old"

/-- Warning for a token younger than 72 hours. -/
def new_token_warning (age : ℚ) : String :=
  "⚠️ New token: " ++ fmt1 age ++ " hours old"

/-- Warning when the top holder owns more than 50 percent. -/
def high_concentration_warning (pct : ℚ) : String :=
  "🚨 High concentration: Top holder owns " ++ fmt1 pct ++ "%"

/-- Warning when the top holder owns more than 20 percent. -/
def concentrated_warning (pct : ℚ) : String :=
  "⚠️ Concentrated holdings: Top holder owns " ++ fmt1 pct ++ "%"

/-- Warning for a low holder count. -/
def few_holders_warning (n : ℕ) : String :=
  "⚠️ Few holders: only " ++ toString n ++ " wallets"

/-- Warning when no social links are present. -/
def no_social_warning : String := "⚠️ No social media links found"

/-- Warning set by the except branch of _analyze_token. -/
def degraded_warning : String :=
  "⚠️ Unable to fully analyze token - proceed with extreme caution"

/-- Warning appended by _make_decision when the requested amount exceeds the
tier's safe limit. -/
def limit_warning (amount max_safe : ℚ) : String :=
  "⚠️ Amount (" ++ fmtQ amount ++ " SOL) exceeds safe limit (" ++ fmtQ max_safe
    ++ " SOL) for this risk level"

/-- Default-initialized TokenAnalysis, as built at the top of _analyze_token. -/
def initAnalysis (mint symbol : String) : TokenAnalysis :=
  { mint := mint
    symbol := symbol
    name := symbol
    overall_risk := 50
    honeypot_risk := 0
    rugpull_risk := 0
    liquidity_risk := 50
    concentration_risk := 50
    is_honeypot := false
    is_blacklisted := false
    has_mint_authority := false
    has_freeze_authority := false
    is_verified := false
    liquidity_usd := 0
    price_impact_1sol := 100
    can_sell := true
    top_holder_pct := 0
    holder_count := 0
    has_social := false
    age_hours := 0
    warnings := []
    risk_level := .medium
    recommended_action := .warn
    max_safe_amount_sol := 0 }

/-- Liquidity portion of _analyze_token (the `if liquidity_data:` block and its
else branch): updates liquidity fields, detects the honeypot, classifies
liquidity risk and appends the corresponding warnings in source order. -/
def applyLiquidity (a : TokenAnalysis) : Option LiquidityData → TokenAnalysis
  | none =>
    { a with
      liquidity_risk := 90
      warnings := a.warnings ++ [no_liquidity_warning] }
  | some ld =>
    let usd := ld.estimated_liquidity_usd.getD 0
    let impact := ld.price_impact_buy.getD 100
    let hp := ld.can_buy.getD false && !(ld.can_sell.getD false)
    let liqRisk : ℚ :=
      if usd < min_liquidity_usd then 80
      else if usd < 10000 then 50
      else max 0 (30 - usd / 10000)
    let w1 := if hp then [honeypot_warning] else []
    let w2 :=
      if usd < min_liquidity_usd then [very_low_liquidity_warning usd]
      else if usd < 10000 then [low_liquidity_warning usd]
      else []
    let w3 := if impact > max_price_impact_pct then [high_impact_warning impact] else []
    { a with
      liquidity_usd := usd
      price_impact_1sol := impact
      can_sell := ld.can_sell.getD false
      is_honeypot := if hp then true else a.is_honeypot
      honeypot_risk := if hp then 100 else a.honeypot_risk
      liquidity_risk := liqRisk
      warnings := a.warnings ++ w1 ++ w2 ++ w3 }

/-- Metadata portion of _analyze_token (the `if token_info:` block): applies
authority / age / concentration / holder / social rules. The sequential
rugpull_risk += updates are compressed into one sum in source order. -/
def applyTokenInfo (a : TokenAnalysis) : Option TokenInfo → TokenAnalysis
  | none => a
  | some ti =>
    let mintAuth := ti.mint_authority_enabled.getD false
    let freezeAuth := ti.freeze_authority_enabled.getD false
    let age := ti.age_hours.getD 0
    let holders := ti.holder_count.getD 0
    let pct := ti.top_holder_pct.getD 0
    let social := ti.has_social.getD false
    let rug := a.rugpull_risk
      + (if mintAuth then 30 else 0)
      + (if freezeAuth then 20 else 0)
      + (if age < 24 then 20 else if age < 72 then 10 else 0)
    let conc : ℚ :=
      if pct > 50 then 90
      else if pct > 20 then 60
      else a.concentration_risk
    let w := (if mintAuth then [mint_authority_warning] else [])
      ++ (if freezeAuth then [freeze_authority_warning] else [])
      ++ (if age < 24 then [very_new_token_warning age]
          else if age < 72 then [new_token_warning age] else [])
      ++ (if pct > 50 then [high_concentration_warning pct]
          else if pct > 20 then [concentrated_warning pct] else [])
      ++ (if holders < 100 then [few_holders_warning holders] else [])
      ++ (if !social then [no_social_warning] else [])
    { a with
      name := ti.name.getD a.symbol
      has_mint_authority := mintAuth
      has_freeze_authority := freezeAuth
      is_verified := ti.verified.getD false
      age_hours := age
      holder_count := holders
      top_holder_pct := pct
      has_social := social
      rugpull_risk := rug
      concentration_risk := conc
      warnings := a.warnings ++ w }

/-- _calculate_overall_risk: honeypot short-circuit, else the weighted sum
with weights 0.30 / 0.25 / 0.25 / 0.20, the 0.7 verified bonus, clamped. -/
def calculate_overall_risk (a : TokenAnalysis) : ℚ :=
  if a.is_honeypot then 100
  else
    let score := a.honeypot_risk * (3/10) + a.rugpull_risk * (1/4)
      + a.liquidity_risk * (1/4) + a.concentration_risk * (1/5)
    let score := if a.is_verified then score * (7/10) else score
    min 100 (max 0 score)

/-- _determine_risk_level: honeypot and blacklist short-circuits, then the
threshold ladder on overall_risk. -/
def determine_risk_level (a : TokenAnalysis) : SwapRisk :=
  if a.is_honeypot then .critical
  else if a.is_blacklisted then .blocked
  else if a.overall_risk < safe_max_risk then .safe
  else if a.overall_risk < low_max_risk then .low
  else if a.overall_risk < medium_max_risk then .medium
  else if a.overall_risk < high_max_risk then .high
  else .critical

/-- _determine_action: fixed tier-to-action mapping. -/
def determine_action (a : TokenAnalysis) : SwapAction :=
  match a.risk_level with
  | .safe => .approve
  | .low => .approve
  | .medium => .warn
  | .high => .require_confirm
  | .critical => .reject
  | .blocked => .reject

/-- Tail of _analyze_token's try block: compute overall risk, then risk level,
then action, then the position cap, each reading the fields just assigned. -/
def finishAnalysis (a : TokenAnalysis) : TokenAnalysis :=
  let a1 := { a with overall_risk := calculate_overall_risk a }
  let a2 := { a1 with risk_level := determine_risk_level a1 }
  let a3 := { a2 with recommended_action := determine_action a2 }
  { a3 with max_safe_amount_sol := position_limits a3.risk_level }

/-- Analysis produced by the except branch of _analyze_token: degraded
high-risk default with the incompleteness warning. -/
def degradedAnalysis (mint symbol : String) : TokenAnalysis :=
  { initAnalysis mint symbol with
    overall_risk := 75
    risk_level := .high
    recommended_action := .warn
    warnings := [degraded_warning] }

/-- _analyze_token: signal gathering is the Except input (the source's
try/except catches a raising gather and degrades); on success the liquidity
block, the metadata block and the final scoring run in order. -/
def analyze_token (mint symbol : String)
    (gather : Except String (Option LiquidityData × Option TokenInfo)) :
    TokenAnalysis :=
  match gather with
  | .error _ => degradedAnalysis mint symbol
  | .ok (ld, ti) =>
    finishAnalysis (applyTokenInfo (applyLiquidity (initAnalysis mint symbol) ld) ti)

/-- _calculate_confidence. -/
def calculate_confidence (a : TokenAnalysis) : ℚ :=
  let c : ℚ := 50 + (if a.liquidity_usd > 0 then 15 else 0)
    + (if a.holder_count > 0 then 10 else 0)
    + (if a.age_hours > 0 then 10 else 0)
    + (if a.is_verified then 15 else 0)
  let c := if a.is_honeypot then 95
    else if a.overall_risk < 10 ∨ a.overall_risk > 90 then c + 10 else c
  min 99 c

/-- String value of a SwapAction (enum .value). -/
def action_value : SwapAction → String
  | .approve => "approve"
  | .warn => "warn"
  | .limit => "limit"
  | .reject => "reject"
  | .require_confirm => "require_confirm"

/-- Uppercased string value of a SwapAction (.value.upper()). -/
def action_value_upper : SwapAction → String
  | .approve => "APPROVE"
  | .warn => "WARN"
  | .limit => "LIMIT"
  | .reject => "REJECT"
  | .require_confirm => "REQUIRE_CONFIRM"

/-- String value of a SwapRisk (enum .value). -/
def risk_value : SwapRisk → String
  | .safe => "safe"
  | .low => "low"
  | .medium => "medium"
  | .high => "high"
  | .critical => "critical"
  | .blocked => "blocked"

/-- Newline separator used by "\n".join. -/
def newlineStr : String := "\n"

/-- First line of the reasoning text. -/
def header_line (request : SwapRequest) : String :=
  "Swap evaluation: " ++ request.input_symbol ++ " → " ++ request.output_symbol

/-- Risk-score line of the reasoning text. -/
def risk_score_line (a : TokenAnalysis) : String :=
  "Risk Score: " ++ fmt0 a.overall_risk ++ "/100 (" ++ risk_value a.risk_level ++ ")"

/-- Decision line of the reasoning text. -/
def decision_line (action : SwapAction) : String :=
  "Decision: " ++ action_value_upper action

/-- Honeypot block of the reasoning text. -/
def honeypot_reason_lines : List String :=
  ["🚨 CRITICAL: Token identified as HONEYPOT",
   "You can buy but CANNOT SELL this token.",
   "This is a confirmed scam - DO NOT TRADE."]

/-- Header of the warning enumeration in the reasoning text. -/
def risk_factors_header : String := "Risk factors identified:"

/-- Approval line of the reasoning text. -/
def approved_line : String := "✅ Trade approved - acceptable risk level"

/-- Rejection line of the reasoning text. -/
def blocked_line : String := "❌ Trade BLOCKED for your protection"

/-- Two-space indentation applied to each warning in the reasoning text. -/
def indent_warning (w : String) : String := "  " ++ w

/-- _generate_reasoning. -/
def generate_reasoning (request : SwapRequest) (a : TokenAnalysis)
    (action : SwapAction) : String :=
  let lines := [header_line request, risk_score_line a, decision_line action, ""]
  let lines := lines ++
    (if a.is_honeypot then honeypot_reason_lines
     else if a.warnings ≠ [] then risk_factors_header :: a.warnings.map indent_warning
     else [])
  let lines := lines ++
    (if action = SwapAction.approve then ["", approved_line]
     else if action = SwapAction.reject then ["", blocked_line]
     else [])
  String.intercalate newlineStr lines

/-- _make_decision. The Python function mutates analysis.warnings in place
when the requested amount exceeds the tier cap; the updated analysis is
returned as the second component to model that aliasing explicitly. -/
def make_decision (request : SwapRequest) (analysis : TokenAnalysis) :
    SwapDecision × TokenAnalysis :=
  let action0 := analysis.recommended_action
  let risk_level := analysis.risk_level
  let max_safe := position_limits risk_level
  let exceeds := request.input_amount > max_safe ∧ max_safe > 0
  let action := if exceeds then SwapAction.limit else action0
  let analysis1 :=
    if exceeds then
      { analysis with
        warnings := analysis.warnings ++ [limit_warning request.input_amount max_safe] }
    else analysis
  let safe_params : Option SafeSwapParams :=
    if action = SwapAction.approve ∨ action = SwapAction.warn ∨ action = SwapAction.limit then
      some
        { input_mint := request.input_mint
          output_mint := request.output_mint
          amount := if max_safe > 0 then min request.input_amount max_safe
            else request.input_amount
          slippage_bps := max request.slippage_bps
            ((slippage_recommendations risk_level).getD 100)
          max_accounts := some 20 }
    else none
  let reasoning := generate_reasoning request analysis1 action
  ({ request_id := request.id
     action := action
     risk_level := risk_level
     token_analysis := some analysis1
     recommended_slippage_bps := (slippage_recommendations risk_level).getD 100
     max_safe_amount := max_safe
     warnings := analysis1.warnings
     safe_swap_params := safe_params
     reasoning := reasoning
     confidence := calculate_confidence analysis1 }, analysis1)

/-- Reason string of the whitelist fast path. -/
def whitelist_reason : String := "Token is verified and whitelisted"

/-- Reason string of the blacklist fast path. -/
def blacklist_reason : String := "Token is blacklisted as a known scam"

/-- Alert marker prepended to fast-path warnings. -/
def alert_mark : String := "🚨 "

/-- Check marker prepended to fast-path reasonings. -/
def ok_mark : String := "✅ "

/-- Blocked marker prepended to the reject reasoning. -/
def blocked_mark : String := "❌ BLOCKED: "

/-- _approve_swap: quick approve for whitelisted tokens. -/
def approve_swap (request : SwapRequest) (reason : String) : SwapDecision :=
  { request_id := request.id
    action := .approve
    risk_level := .safe
    token_analysis := none
    recommended_slippage_bps := 50
    max_safe_amount := 100
    warnings := []
    safe_swap_params := some
      { input_mint := request.input_mint
        output_mint := request.output_mint
        amount := request.input_amount
        slippage_bps := request.slippage_bps
        max_accounts := none }
    reasoning := ok_mark ++ reason
    confidence := 99 }

/-- _reject_swap: quick reject for blacklisted tokens. -/
def reject_swap (request : SwapRequest) (reason : String) : SwapDecision :=
  { request_id := request.id
    action := .reject
    risk_level := .blocked
    token_analysis := none
    recommended_slippage_bps := 0
    max_safe_amount := 0
    warnings := [alert_mark ++ reason]
    safe_swap_params := none
    reasoning := blocked_mark ++ reason
    confidence := 99 }

/-- Analysis cache: mint, cached analysis, store timestamp in seconds. -/
abbrev AnalysisCache := List (String × TokenAnalysis × ℕ)

/-- Dictionary lookup in the analysis cache. -/
def cacheLookup : AnalysisCache → String → Option (TokenAnalysis × ℕ)
  | [], _ => none
  | e :: rest, m => if e.1 = m then some e.2 else cacheLookup rest m

/-- Dictionary assignment self.analysis_cache[mint] = (analysis, now). -/
def cacheStore : AnalysisCache → String → TokenAnalysis → ℕ → AnalysisCache
  | [], m, a, t => [(m, a, t)]
  | e :: rest, m, a, t =>
    if e.1 = m then (m, a, t) :: rest else e :: cacheStore rest m a t

/-- In-place mutation of the analysis object held by the cache (aliasing of
the Python reference); the stored timestamp is unchanged. -/
def cacheMutate : AnalysisCache → String → TokenAnalysis → AnalysisCache
  | [], _, _ => []
  | e :: rest, m, a =>
    if e.1 = m then (m, a, e.2.2) :: rest else e :: cacheMutate rest m a

/-- self.cache_ttl = timedelta(minutes=5), in seconds. -/
def cache_ttl : ℕ := 300

/-- Mutable agent state touched by the decision path: the whitelist and
blacklist sets and the analysis cache. -/
structure GuardState where
  whitelist : List String
  blacklist : List String
  cache : AnalysisCache
  deriving DecidableEq, Repr

/-- _get_token_analysis: return the cached analysis when it is younger than
the TTL, otherwise compute fresh and store it. The Bool records whether a
fresh computation (a signal-gathering round) happened. -/
def get_token_analysis (st : GuardState) (now : ℕ) (mint symbol : String)
    (gather : Except String (Option LiquidityData × Option TokenInfo)) :
    TokenAnalysis × GuardState × Bool :=
  match cacheLookup st.cache mint with
  | some (cached, ts) =>
    if now - ts < cache_ttl then (cached, st, false)
    else
      let a := analyze_token mint symbol gather
      (a, { st with cache := cacheStore st.cache mint a now }, true)
  | none =>
    let a := analyze_token mint symbol gather
    (a, { st with cache := cacheStore st.cache mint a now }, true)

/-- evaluate_swap: whitelist fast path, then blacklist fast path, then cached
analysis and _make_decision. The write-back through cacheMutate models the
in-place warnings.append of _make_decision acting on the cached object. The
Bool records whether any analysis computation / signal gathering ran. -/
def evaluate_swap (st : GuardState) (now : ℕ) (request : SwapRequest)
    (gather : Except String (Option LiquidityData × Option TokenInfo)) :
    SwapDecision × GuardState × Bool :=
  if request.output_mint ∈ st.whitelist then
    (approve_swap request whitelist_reason, st, false)
  else if request.output_mint ∈ st.blacklist then
    (reject_swap request blacklist_reason, st, false)
  else
    let r := get_token_analysis st now request.output_mint request.output_symbol gather
    let d := make_decision request r.1
    (d.1, { r.2.1 with cache := cacheMutate r.2.1.cache request.output_mint d.2 }, r.2.2)

/-- Status of an evacuation operation (enum EvacuationStatus); the PARTIAL
member is named partialDone here because its source name is a Lean keyword. -/
inductive EvacuationStatus where
  | pending
  | analyzing
  | in_progress
  | completed
  | partialDone
  | failed
  | cancelled
  deriving DecidableEq, Repr

/-- Urgency level for evacuation (enum ThreatUrgency). -/
inductive ThreatUrgency where
  | low
  | medium
  | high
  | critical
  deriving DecidableEq, Repr

/-- Types of assets to evacuate (enum AssetType). -/
inductive AssetType where
  | sol
  | spl_token
  | nft
  | stake
  deriving DecidableEq, Repr

/-- An asset in a wallet (dataclass WalletAsset). -/
structure WalletAsset where
  asset_type : AssetType
  mint : Option String
  symbol : String
  balance : ℚ
  decimals : ℕ
  value_usd : ℚ
  token_account : Option String
  is_nft : Bool
  deriving DecidableEq, Repr

/-- A token approval that could be exploited (dataclass DangerousApproval). -/
structure DangerousApproval where
  token_mint : String
  token_symbol : String
  approved_program : String
  approved_amount : ℚ
  risk_level : String
  reason : String
  deriving DecidableEq, Repr

/-- Plan for evacuating a wallet (dataclass EvacuationPlan); created_at is
never read by execution and is omitted. -/
structure EvacuationPlan where
  source_wallet : String
  destination_wallet : String
  urgency : ThreatUrgency
  assets : List WalletAsset
  total_value_usd : ℚ
  approvals_to_revoke : List DangerousApproval
  estimated_transactions : ℕ
  estimated_fee_sol : ℚ
  estimated_time_seconds : ℕ
  priority_fee_lamports : ℕ
  use_jito_bundles : Bool
  deriving DecidableEq, Repr

/-- String value of an AssetType (enum .value). -/
def asset_type_value : AssetType → String
  | .sol => "sol"
  | .spl_token => "spl_token"
  | .nft => "nft"
  | .stake => "stake"

/-- Dictionary produced by _asset_to_dict. -/
structure AssetDict where
  type_value : String
  mint : Option String
  symbol : String
  balance : ℚ
  decimals : ℕ
  value_usd : ℚ
  token_account : Option String
  is_nft : Bool
  deriving DecidableEq, Repr

/-- _asset_to_dict. -/
def asset_to_dict (a : WalletAsset) : AssetDict :=
  { type_value := asset_type_value a.asset_type
    mint := a.mint
    symbol := a.symbol
    balance := a.balance
    decimals := a.decimals
    value_usd := a.value_usd
    token_account := a.token_account
    is_nft := a.is_nft }

/-- Result of an evacuation operation (dataclass EvacuationResult); the plan
back-reference and the wall-clock timing fields carry no decision content and
are omitted. -/
structure EvacuationResult where
  status : EvacuationStatus
  assets_evacuated : List AssetDict
  assets_failed : List AssetDict
  approvals_revoked : List String
  approvals_failed : List String
  total_evacuated_usd : ℚ
  total_failed_usd : ℚ
  transactions_sent : ℕ
  transactions_confirmed : ℕ
  errors : List String
  deriving DecidableEq, Repr

/-- self.min_sol_reserve = 0.01. -/
def min_sol_reserve : ℚ := 1/100

/-- One attempted on-chain operation during evacuation, in execution order. -/
inductive EvacOp where
  | revokeAttempt (mint : String)
  | tokenTransferAttempt (symbol : String)
  | solTransferAttempt
  deriving DecidableEq, Repr

/-- Execution phase of an operation: revocations run first, then token
transfers, then the native transfer. -/
def opPhase : EvacOp → ℕ
  | .revokeAttempt _ => 0
  | .tokenTransferAttempt _ => 1
  | .solTransferAttempt => 2

/-- Recognizer for revocation attempts. -/
def isRevoke : EvacOp → Bool
  | .revokeAttempt _ => true
  | _ => false

/-- Recognizer for token-transfer attempts. -/
def isTokenTransfer : EvacOp → Bool
  | .tokenTransferAttempt _ => true
  | _ => false

/-- Recognizer for the native-currency transfer attempt. -/
def isSolTransfer : EvacOp → Bool
  | .solTransferAttempt => true
  | _ => false

/-- Recognizer for any transfer attempt (token or native). -/
def isTransfer (op : EvacOp) : Bool := isTokenTransfer op || isSolTransfer op

/-- Outcome of one awaited helper call: none is success, some e is a raised
exception with message e. In a dry run the call is skipped, so it succeeds. -/
def effectiveErr (dry_run : Bool) (e : Option String) : Option String :=
  if dry_run then none else e

/-- Empty string used as the .getD default for exception messages. -/
def empty_str : String := ""

/-- Error message recorded for a failed revocation. -/
def revoke_err_msg (ap : DangerousApproval) (e : String) : String :=
  "Failed to revoke " ++ ap.token_symbol ++ ": " ++ e

/-- Error message recorded for a failed token transfer. -/
def transfer_err_msg (a : WalletAsset) (e : String) : String :=
  "Failed to transfer " ++ a.symbol ++ ": " ++ e

/-- Error message recorded for a failed native transfer. -/
def sol_err_msg (e : String) : String := "Failed to transfer SOL: " ++ e

/-- Step 1 of execute_evacuation, the per-approval loop: each iteration emits
one attempt and appends to exactly one of approvals_revoked / approvals_failed
(plus errors), so the loop is rendered as filters and maps over the approval
list in order. Returns (revoked, failed, errors, successes, trace). -/
def run_revocations (dry_run : Bool) (revokeErr : DangerousApproval → Option String)
    (approvals : List DangerousApproval) :
    List String × List String × List String × ℕ × List EvacOp :=
  ((approvals.filter (fun ap => effectiveErr dry_run (revokeErr ap) = none)).map
     (fun ap => ap.token_mint),
   (approvals.filter (fun ap => effectiveErr dry_run (revokeErr ap) ≠ none)).map
     (fun ap => ap.token_mint),
   (approvals.filter (fun ap => effectiveErr dry_run (revokeErr ap) ≠ none)).map
     (fun ap => revoke_err_msg ap ((revokeErr ap).getD empty_str)),
   (approvals.filter (fun ap => effectiveErr dry_run (revokeErr ap) = none)).length,
   approvals.map (fun ap => EvacOp.revokeAttempt ap.token_mint))

/-- Step 2 of execute_evacuation, the per-token loop, rendered the same way.
Returns (evacuated, failed, evacuatedUsd, failedUsd, errors, successes,
trace). -/
def run_token_transfers (dry_run : Bool) (tokenErr : WalletAsset → Option String)
    (tokens : List WalletAsset) :
    List AssetDict × List AssetDict × ℚ × ℚ × List String × ℕ × List EvacOp :=
  ((tokens.filter (fun a => effectiveErr dry_run (tokenErr a) = none)).map asset_to_dict,
   (tokens.filter (fun a => effectiveErr dry_run (tokenErr a) ≠ none)).map asset_to_dict,
   ((tokens.filter (fun a => effectiveErr dry_run (tokenErr a) = none)).map
      (fun a => a.value_usd)).sum,
   ((tokens.filter (fun a => effectiveErr dry_run (tokenErr a) ≠ none)).map
      (fun a => a.value_usd)).sum,
   (tokens.filter (fun a => effectiveErr dry_run (tokenErr a) ≠ none)).map
     (fun a => transfer_err_msg a ((tokenErr a).getD empty_str)),
   (tokens.filter (fun a => effectiveErr dry_run (tokenErr a) = none)).length,
   tokens.map (fun a => EvacOp.tokenTransferAttempt a.symbol))

/-- The SOL WalletAsset recorded on a successful native transfer. -/
def evacuatedSolAsset (amount sol_price : ℚ) : WalletAsset :=
  { asset_type := .sol
    mint := none
    symbol := "SOL"
    balance := amount
    decimals := 9
    value_usd := amount * sol_price
    token_account := none
    is_nft := false }

/-- Step 3 of execute_evacuation: the first SOL asset, if any, is transferred
minus the minimum reserve, and only when the remaining amount is positive.
Returns (evacuated, failed, evacuatedUsd, failedUsd, errors, successes,
trace). -/
def run_sol_transfer (dry_run : Bool) (solErr : Option String)
    (solAssets : List WalletAsset) (sol_price : ℚ) :
    List AssetDict × List AssetDict × ℚ × ℚ × List String × ℕ × List EvacOp :=
  match solAssets.head? with
  | none => ([], [], 0, 0, [], 0, [])
  | some s =>
    let amount := max 0 (s.balance - min_sol_reserve)
    if amount > 0 then
      match effectiveErr dry_run solErr with
      | none =>
        ([asset_to_dict (evacuatedSolAsset amount sol_price)], [],
         amount * sol_price, 0, [], 1, [EvacOp.solTransferAttempt])
      | some e =>
        ([], [asset_to_dict s], 0, s.value_usd, [sol_err_msg e], 0,
         [EvacOp.solTransferAttempt])
    else ([], [], 0, 0, [], 0, [])

/-- execute_evacuation: the three phases in order, per-operation failures
caught and recorded, final status from the error and evacuated lists. The
failure inputs model which awaited helper calls raise; sol_price models the
external price feed used to value the transferred SOL. The second component
is the chronological trace of attempted operations. -/
def execute_evacuation (plan : EvacuationPlan) (dry_run : Bool)
    (revokeErr : DangerousApproval → Option String)
    (tokenErr : WalletAsset → Option String)
    (solErr : Option String) (sol_price : ℚ) :
    EvacuationResult × List EvacOp :=
  let rev := run_revocations dry_run revokeErr plan.approvals_to_revoke
  let tokenAssets := plan.assets.filter (fun a => a.asset_type ≠ AssetType.sol)
  let tok := run_token_transfers dry_run tokenErr tokenAssets
  let solAssets := plan.assets.filter (fun a => a.asset_type = AssetType.sol)
  let sol := run_sol_transfer dry_run solErr solAssets sol_price
  let evacuated := tok.1 ++ sol.1
  let failedAssets := tok.2.1 ++ sol.2.1
  let errors := rev.2.2.1 ++ tok.2.2.2.2.1 ++ sol.2.2.2.2.1
  let successes := rev.2.2.2.1 + tok.2.2.2.2.2.1 + sol.2.2.2.2.2.1
  let status :=
    if errors = [] then EvacuationStatus.completed
    else if evacuated ≠ [] then EvacuationStatus.partialDone
    else EvacuationStatus.failed
  ({ status := status
     assets_evacuated := evacuated
     assets_failed := failedAssets
     approvals_revoked := rev.1
     approvals_failed := rev.2.1
     total_evacuated_usd := tok.2.2.1 + sol.2.2.1
     total_failed_usd := tok.2.2.2.1 + sol.2.2.2.1
     transactions_sent := successes
     transactions_confirmed := successes
     errors := errors },
   rev.2.2.2.2 ++ tok.2.2.2.2.2.2 ++ sol.2.2.2.2.2.2)

/-! Concrete inputs used by witnesses and counterexamples. -/

/-- Example output mint. -/
def mintX : String := "MintX"

/-- Example output token symbol. -/
def symX : String := "TKX"

/-- Liquidity probe of the spec's example scenario: 500 USD, tradeable both
ways, price impact absent. -/
def ldEx : LiquidityData :=
  { estimated_liquidity_usd := some 500
    price_impact_buy := none
    can_buy := some true
    can_sell := some true }

/-- Token info of the spec's example scenario: mint authority on, 2 hours
old, top holder 95 percent, everything else absent. -/
def tiEx : TokenInfo :=
  { name := none
    mint_authority_enabled := some true
    freeze_authority_enabled := none
    verified := none
    age_hours := some 2
    holder_count := none
    top_holder_pct := some 95
    has_social := none }

/-- Gather result of the example scenario. -/
def gEx : Except String (Option LiquidityData × Option TokenInfo) :=
  .ok (some ldEx, some tiEx)

/-- Analysis of the example scenario. -/
def aEx : TokenAnalysis := analyze_token mintX symX gEx

/-- Example request for 5 SOL (above the Medium-tier 2 SOL cap). -/
def reqEx5 : SwapRequest :=
  { id := "r1"
    user_wallet := "w1"
    input_mint := "SOLMINT"
    output_mint := "MintX"
    input_amount := 5
    input_symbol := "SOL"
    output_symbol := "TKX"
    slippage_bps := 100 }

/-- Example request for 1 SOL (within the Medium-tier cap). -/
def reqEx1 : SwapRequest :=
  { id := "r2"
    user_wallet := "w1"
    input_mint := "SOLMINT"
    output_mint := "MintX"
    input_amount := 1
    input_symbol := "SOL"
    output_symbol := "TKX"
    slippage_bps := 100 }

/-- Honeypot liquidity probe: deep liquidity, buyable, not sellable. -/
def ldHoney : LiquidityData :=
  { estimated_liquidity_usd := some 50000
    price_impact_buy := some 1
    can_buy := some true
    can_sell := some false }

/-- Empty agent state. -/
def st0 : GuardState := { whitelist := [], blacklist := [], cache := [] }

/-- State whose whitelist and blacklist both contain the example mint. -/
def stWB : GuardState :=
  { whitelist := [mintX], blacklist := [mintX], cache := [] }

/-- State whose blacklist (only) contains the example mint. -/
def stB : GuardState := { whitelist := [], blacklist := [mintX], cache := [] }

/-- Example dangerous approval. -/
def apEx : DangerousApproval :=
  { token_mint := "ApMint"
    token_symbol := "APT"
    approved_program := "Prog"
    approved_amount := 1000
    risk_level := "high"
    reason := "unknown delegation" }

/-- Mint of example token 1. -/
def mintT1 : String := "T1M"

/-- Mint of example token 2. -/
def mintT2 : String := "T2M"

/-- Mint of example token 3. -/
def mintT3 : String := "T3M"

/-- Message of the simulated transfer failure. -/
def sim_fail_msg : String := "simulated rpc failure"

/-- Example token asset number 1. -/
def tokEx1 : WalletAsset :=
  { asset_type := .spl_token
    mint := some mintT1
    symbol := "T1"
    balance := 3
    decimals := 6
    value_usd := 10
    token_account := none
    is_nft := false }

/-- Example token asset number 2. -/
def tokEx2 : WalletAsset :=
  { asset_type := .spl_token
    mint := some mintT2
    symbol := "T2"
    balance := 7
    decimals := 6
    value_usd := 20
    token_account := none
    is_nft := false }

/-- Example token asset number 3. -/
def tokEx3 : WalletAsset :=
  { asset_type := .spl_token
    mint := some mintT3
    symbol := "T3"
    balance := 9
    decimals := 9
    value_usd := 30
    token_account := none
    is_nft := false }

/-- Example SOL asset. -/
def solEx : WalletAsset :=
  { asset_type := .sol
    mint := none
    symbol := "SOL"
    balance := 2
    decimals := 9
    value_usd := 300
    token_account := none
    is_nft := false }

/-- Plan with one approval and one token asset. -/
def planRT : EvacuationPlan :=
  { source_wallet := "src"
    destination_wallet := "dst"
    urgency := .high
    assets := [tokEx1]
    total_value_usd := 10
    approvals_to_revoke := [apEx]
    estimated_transactions := 1
    estimated_fee_sol := 0
    estimated_time_seconds := 5
    priority_fee_lamports := 100000
    use_jito_bundles := false }

/-- Plan with one approval, one token asset and the SOL asset. -/
def planRTS : EvacuationPlan :=
  { source_wallet := "src"
    destination_wallet := "dst"
    urgency := .high
    assets := [tokEx1, solEx]
    total_value_usd := 310
    approvals_to_revoke := [apEx]
    estimated_transactions := 1
    estimated_fee_sol := 0
    estimated_time_seconds := 5
    priority_fee_lamports := 100000
    use_jito_bundles := false }

/-- Plan with three token assets and no approvals. -/
def plan3 : EvacuationPlan :=
  { source_wallet := "src"
    destination_wallet := "dst"
    urgency := .high
    assets := [tokEx1, tokEx2, tokEx3]
    total_value_usd := 60
    approvals_to_revoke := []
    estimated_transactions := 1
    estimated_fee_sol := 0
    estimated_time_seconds := 5
    priority_fee_lamports := 100000
    use_jito_bundles := false }

/-- Token-failure input that fails exactly the second example token. -/
def tokenErr2 : WalletAsset → Option String :=
  fun a => if a = tokEx2 then some sim_fail_msg else none

/-- State holding a cached analysis for the example mint, stored at time 0. -/
def stC : GuardState := { whitelist := [], blacklist := [], cache := [(mintX, aEx, 0)] }

/-- Source wallet name used in evacuation witnesses. -/
def srcW : String := "src"

/-- Destination wallet name used in evacuation witnesses. -/
def dstW : String := "dst"

/-! Projection lemmas about the analysis pipeline. -/

/-- The metadata block never touches the honeypot flag. -/
theorem applyTokenInfo_is_honeypot (a : TokenAnalysis) (ti : Option TokenInfo) :
    (applyTokenInfo a ti).is_honeypot = a.is_honeypot := by
  cases ti <;> rfl

/-- The metadata block never touches the honeypot component score. -/
theorem applyTokenInfo_honeypot_risk (a : TokenAnalysis) (ti : Option TokenInfo) :
    (applyTokenInfo a ti).honeypot_risk = a.honeypot_risk := by
  cases ti <;> rfl

/-- The metadata block never touches the liquidity component score. -/
theorem applyTokenInfo_liquidity_risk (a : TokenAnalysis) (ti : Option TokenInfo) :
    (applyTokenInfo a ti).liquidity_risk = a.liquidity_risk := by
  cases ti <;> rfl

/-- The liquidity block never touches the concentration component score. -/
theorem applyLiquidity_concentration_risk (a : TokenAnalysis) (ld : Option LiquidityData) :
    (applyLiquidity a ld).concentration_risk = a.concentration_risk := by
  cases ld <;> rfl

/-- Honeypot flag produced by the liquidity block. -/
theorem applyLiquidity_some_is_honeypot (a : TokenAnalysis) (ld : LiquidityData) :
    (applyLiquidity a (some ld)).is_honeypot =
      (if ld.can_buy.getD false && !(ld.can_sell.getD false) then true else a.is_honeypot) :=
  rfl

/-- Honeypot component produced by the liquidity block. -/
theorem applyLiquidity_some_honeypot_risk (a : TokenAnalysis) (ld : LiquidityData) :
    (applyLiquidity a (some ld)).honeypot_risk =
      (if ld.can_buy.getD false && !(ld.can_sell.getD false) then 100 else a.honeypot_risk) :=
  rfl

/-- Final scoring keeps the honeypot component. -/
theorem finishAnalysis_honeypot_risk (a : TokenAnalysis) :
    (finishAnalysis a).honeypot_risk = a.honeypot_risk := rfl

/-- Final scoring keeps the liquidity component. -/
theorem finishAnalysis_liquidity_risk (a : TokenAnalysis) :
    (finishAnalysis a).liquidity_risk = a.liquidity_risk := rfl

/-- Final scoring keeps the concentration component. -/
theorem finishAnalysis_concentration_risk (a : TokenAnalysis) :
    (finishAnalysis a).concentration_risk = a.concentration_risk := rfl

/-- Overall score written by final scoring. -/
theorem finishAnalysis_overall (a : TokenAnalysis) :
    (finishAnalysis a).overall_risk = calculate_overall_risk a := rfl

/-- Risk level written by final scoring. -/
theorem finishAnalysis_risk_level (a : TokenAnalysis) :
    (finishAnalysis a).risk_level =
      determine_risk_level { a with overall_risk := calculate_overall_risk a } := rfl

/-- Action written by final scoring, as a function of the level just set. -/
theorem finishAnalysis_action (a : TokenAnalysis) :
    (finishAnalysis a).recommended_action =
      determine_action { a with
        overall_risk := calculate_overall_risk a
        risk_level :=
          determine_risk_level { a with overall_risk := calculate_overall_risk a } } := rfl

/-- Action chosen by _make_decision: the recommended action, downgraded to
limit when the requested amount exceeds a positive tier cap. -/
theorem make_decision_action (req : SwapRequest) (a : TokenAnalysis) :
    (make_decision req a).1.action =
      (if req.input_amount > position_limits a.risk_level ∧ position_limits a.risk_level > 0
       then SwapAction.limit else a.recommended_action) := rfl

/-- Risk level copied into the decision by _make_decision. -/
theorem make_decision_risk_level (req : SwapRequest) (a : TokenAnalysis) :
    (make_decision req a).1.risk_level = a.risk_level := rfl

/-- Analysis value returned (the in-place mutation) by _make_decision. -/
theorem make_decision_snd (req : SwapRequest) (a : TokenAnalysis) :
    (make_decision req a).2 =
      (if req.input_amount > position_limits a.risk_level ∧ position_limits a.risk_level > 0
       then { a with warnings := a.warnings ++
              [limit_warning req.input_amount (position_limits a.risk_level)] }
       else a) := rfl

/-- Unfolding of analyze_token on a successful gather. -/
theorem analyze_token_ok (mint symbol : String) (ld : Option LiquidityData)
    (ti : Option TokenInfo) :
    analyze_token mint symbol (.ok (ld, ti)) =
      finishAnalysis (applyTokenInfo (applyLiquidity (initAnalysis mint symbol) ld) ti) :=
  rfl

/-- Safe-swap parameters produced by _make_decision, as a function of the
final action. -/
theorem make_decision_params (req : SwapRequest) (a : TokenAnalysis) :
    (make_decision req a).1.safe_swap_params =
      (if (make_decision req a).1.action = SwapAction.approve ∨
          (make_decision req a).1.action = SwapAction.warn ∨
          (make_decision req a).1.action = SwapAction.limit then
        some
          { input_mint := req.input_mint
            output_mint := req.output_mint
            amount := if position_limits a.risk_level > 0
              then min req.input_amount (position_limits a.risk_level)
              else req.input_amount
            slippage_bps := max req.slippage_bps
              ((slippage_recommendations a.risk_level).getD 100)
            max_accounts := some 20 }
       else none) := rfl

/-- Warnings copied into the decision are those of the updated analysis. -/
theorem make_decision_warnings (req : SwapRequest) (a : TokenAnalysis) :
    (make_decision req a).1.warnings = (make_decision req a).2.warnings := rfl

/-- The in-place warning append does not change the risk level. -/
theorem make_decision_snd_risk_level (req : SwapRequest) (a : TokenAnalysis) :
    (make_decision req a).2.risk_level = a.risk_level := by
  rw [make_decision_snd]; split <;> rfl

/-- Overall risk computed on the spec's example scenario. -/
theorem aEx_overall : aEx.overall_risk = 101/2 := by
  norm_num [aEx, gEx, mintX, symX, ldEx, tiEx, analyze_token, finishAnalysis,
    applyTokenInfo, applyLiquidity, initAnalysis, calculate_overall_risk,
    min_liquidity_usd]

/-- Risk tier computed on the spec's example scenario. -/
theorem aEx_level : aEx.risk_level = SwapRisk.medium := by
  norm_num [aEx, gEx, mintX, symX, ldEx, tiEx, analyze_token, finishAnalysis,
    applyTokenInfo, applyLiquidity, initAnalysis, calculate_overall_risk,
    determine_risk_level, min_liquidity_usd, safe_max_risk, low_max_risk,
    medium_max_risk, high_max_risk]

/-- Action computed on the spec's example scenario. -/
theorem aEx_action : aEx.recommended_action = SwapAction.warn := by
  norm_num [aEx, gEx, mintX, symX, ldEx, tiEx, analyze_token, finishAnalysis,
    applyTokenInfo, applyLiquidity, initAnalysis, calculate_overall_risk,
    determine_risk_level, determine_action, min_liquidity_usd, safe_max_risk,
    low_max_risk, medium_max_risk, high_max_risk]

/-- The example request for 5 SOL exceeds the positive Medium-tier cap. -/
theorem reqEx5_exceeds :
    reqEx5.input_amount > position_limits aEx.risk_level ∧
      position_limits aEx.risk_level > 0 := by
  rw [aEx_level]
  norm_num [reqEx5, position_limits]

/-- The example request for 1 SOL is within the Medium-tier cap. -/
theorem reqEx1_within :
    ¬ (reqEx1.input_amount > position_limits aEx.risk_level ∧
       position_limits aEx.risk_level > 0) := by
  rw [aEx_level]
  norm_num [reqEx1, position_limits]

/-- C1: a token analysis whose liquidity signals show canBuy and not canSell
is a honeypot: the overall risk is 100, the honeypot component is 100, the
risk tier is Critical, and the swap decision's action is Reject, for every
value of the remaining liquidity fields, the metadata and the request. -/
theorem honeypot_dominance (mint symbol : String) (ld : LiquidityData)
    (ti : Option TokenInfo) (req : SwapRequest)
    (hb : ld.can_buy.getD false = true) (hs : ld.can_sell.getD false = false) :
    (analyze_token mint symbol (.ok (some ld, ti))).overall_risk = 100 ∧
    (analyze_token mint symbol (.ok (some ld, ti))).honeypot_risk = 100 ∧
    (analyze_token mint symbol (.ok (some ld, ti))).risk_level = SwapRisk.critical ∧
    (make_decision req (analyze_token mint symbol (.ok (some ld, ti)))).1.action
      = SwapAction.reject := by
  have hcond : (ld.can_buy.getD false && !(ld.can_sell.getD false)) = true := by
    rw [hb, hs]; rfl
  have hhp : (applyTokenInfo (applyLiquidity (initAnalysis mint symbol) (some ld)) ti).is_honeypot
      = true := by
    rw [applyTokenInfo_is_honeypot, applyLiquidity_some_is_honeypot, hcond]; rfl
  have hhr : (applyTokenInfo (applyLiquidity (initAnalysis mint symbol) (some ld)) ti).honeypot_risk
      = 100 := by
    rw [applyTokenInfo_honeypot_risk, applyLiquidity_some_honeypot_risk, hcond]; rfl
  have hoverall : (analyze_token mint symbol (.ok (some ld, ti))).overall_risk = 100 := by
    rw [analyze_token_ok, finishAnalysis_overall, calculate_overall_risk, if_pos hhp]
  have hlevel : (analyze_token mint symbol (.ok (some ld, ti))).risk_level
      = SwapRisk.critical := by
    rw [analyze_token_ok, finishAnalysis_risk_level, determine_risk_level]
    simp [hhp]
  have haction : (analyze_token mint symbol (.ok (some ld, ti))).recommended_action
      = SwapAction.reject := by
    rw [analyze_token_ok, finishAnalysis_action, determine_action]
    simp [determine_risk_level, hhp]
  refine ⟨hoverall, by rw [analyze_token_ok, finishAnalysis_honeypot_risk, hhr], hlevel, ?_⟩
  rw [make_decision_action, hlevel, haction]
  simp [position_limits]

/-- C1 witness: the honeypot theorem at a concrete bundle and request. -/
theorem honeypot_dominance_witness :
    (analyze_token mintX symX (.ok (some ldHoney, some tiEx))).overall_risk = 100 ∧
    (analyze_token mintX symX (.ok (some ldHoney, some tiEx))).honeypot_risk = 100 ∧
    (analyze_token mintX symX (.ok (some ldHoney, some tiEx))).risk_level = SwapRisk.critical ∧
    (make_decision reqEx5 (analyze_token mintX symX (.ok (some ldHoney, some tiEx)))).1.action
      = SwapAction.reject :=
  honeypot_dominance mintX symX ldHoney (some tiEx) reqEx5 (by decide) (by decide)

/-- C2 counterexample: the example mint is in the blacklist and also in the
whitelist; evaluate_swap checks the whitelist first, so the decision is
Approve with tier Safe instead of the claimed unconditional Reject/Blocked. -/
theorem blacklist_whitelist_overlap_approves :
    mintX ∈ stWB.blacklist ∧
    (evaluate_swap stWB 0 reqEx5 gEx).1.action = SwapAction.approve ∧
    (evaluate_swap stWB 0 reqEx5 gEx).1.risk_level = SwapRisk.safe := by
  decide

/-- C2 amended: for a request whose output token is in the blacklist and not
in the whitelist, the decision is the blacklist rejection (action Reject,
tier Blocked), the agent state is unchanged and no analysis computation or
signal gathering runs, for every gather input — in particular for signals
that would otherwise indicate Safe. -/
theorem blacklist_rejects_unlisted (st : GuardState) (now : ℕ) (req : SwapRequest)
    (gather : Except String (Option LiquidityData × Option TokenInfo))
    (hb : req.output_mint ∈ st.blacklist) (hw : req.output_mint ∉ st.whitelist) :
    (evaluate_swap st now req gather).1 = reject_swap req blacklist_reason ∧
    (evaluate_swap st now req gather).1.action = SwapAction.reject ∧
    (evaluate_swap st now req gather).1.risk_level = SwapRisk.blocked ∧
    (evaluate_swap st now req gather).2.1 = st ∧
    (evaluate_swap st now req gather).2.2 = false := by
  have h1 : evaluate_swap st now req gather = (reject_swap req blacklist_reason, st, false) := by
    unfold evaluate_swap
    rw [if_neg hw, if_pos hb]
  rw [h1]
  exact ⟨rfl, rfl, rfl, rfl, rfl⟩

/-- C2 amended witness: the blacklist rejection at a concrete state. -/
theorem blacklist_rejects_unlisted_witness :
    (evaluate_swap stB 0 reqEx5 gEx).1.action = SwapAction.reject ∧
    (evaluate_swap stB 0 reqEx5 gEx).1.risk_level = SwapRisk.blocked ∧
    (evaluate_swap stB 0 reqEx5 gEx).2.2 = false := by
  have h := blacklist_rejects_unlisted stB 0 reqEx5 gEx (by decide) (by decide)
  exact ⟨h.2.1, h.2.2.1, h.2.2.2.2⟩

/-- C3: a raising signal gather never escapes the scorer — analyze_token is
total and yields the degraded assessment with overall risk 75 (hence at least
75), tier High and the incomplete-analysis warning; and when the liquidity
probe merely returns nothing the liquidity component is 90 (hence at least
90), never zero risk. -/
theorem signal_failure_degrades :
    (∀ (mint symbol err : String),
      (analyze_token mint symbol (.error err)).overall_risk ≥ 75 ∧
      (analyze_token mint symbol (.error err)).risk_level = SwapRisk.high ∧
      (analyze_token mint symbol (.error err)).warnings = [degraded_warning]) ∧
    (∀ (mint symbol : String) (ti : Option TokenInfo),
      (analyze_token mint symbol (.ok (none, ti))).liquidity_risk ≥ 90) := by
  constructor
  · intro mint symbol err
    have h75 : (analyze_token mint symbol (.error err)).overall_risk = 75 := rfl
    exact ⟨by rw [h75], rfl, rfl⟩
  · intro mint symbol ti
    have h90 : (analyze_token mint symbol (.ok (none, ti))).liquidity_risk = 90 := by
      rw [analyze_token_ok, finishAnalysis_liquidity_risk, applyTokenInfo_liquidity_risk]
      rfl
    rw [h90]

/-- C4 counterexample: _make_decision appends the position-limit warning to
the analysis object in place, so calling it twice in sequence on the same
assessment (the aliased object, as a Python retry would) yields two
non-identical decisions — the second carries the warning twice. -/
theorem make_decision_retry_counterexample :
    (make_decision reqEx5 ((make_decision reqEx5 aEx).2)).1 ≠ (make_decision reqEx5 aEx).1 := by
  have ha1 : (make_decision reqEx5 aEx).2 =
      { aEx with warnings := aEx.warnings ++
          [limit_warning reqEx5.input_amount (position_limits aEx.risk_level)] } := by
    rw [make_decision_snd, if_pos reqEx5_exceeds]
  have hex2 : reqEx5.input_amount > position_limits ((make_decision reqEx5 aEx).2).risk_level ∧
      position_limits ((make_decision reqEx5 aEx).2).risk_level > 0 := by
    rw [make_decision_snd_risk_level]; exact reqEx5_exceeds
  have ha2 : (make_decision reqEx5 ((make_decision reqEx5 aEx).2)).2 =
      { (make_decision reqEx5 aEx).2 with
        warnings := ((make_decision reqEx5 aEx).2).warnings ++
          [limit_warning reqEx5.input_amount
            (position_limits ((make_decision reqEx5 aEx).2).risk_level)] } := by
    rw [make_decision_snd, if_pos hex2]
  intro h
  have hw := congrArg (fun d => d.warnings.length) h
  simp only [make_decision_warnings] at hw
  rw [ha2, ha1] at hw
  simp only [List.length_append, List.length_cons, List.length_nil] at hw
  omega

/-- C4 amended: the decision step is a pure function of its input values, and
whenever the requested amount does not exceed a positive tier cap it does not
mutate the assessment, so a repeated call on the same assessment object
yields an identical decision; when the cap is exceeded the first call appends
the limit warning to the shared assessment and the repeat differs. -/
theorem make_decision_deterministic_no_limit (req : SwapRequest) (a : TokenAnalysis)
    (h : ¬ (req.input_amount > position_limits a.risk_level ∧
            position_limits a.risk_level > 0)) :
    (make_decision req a).2 = a ∧
    (make_decision req ((make_decision req a).2)).1 = (make_decision req a).1 := by
  have h2 : (make_decision req a).2 = a := by rw [make_decision_snd, if_neg h]
  exact ⟨h2, by rw [h2]⟩

/-- C4 amended witness: an in-cap retry at a concrete request and analysis. -/
theorem make_decision_deterministic_no_limit_witness :
    (make_decision reqEx1 ((make_decision reqEx1 aEx).2)).1 = (make_decision reqEx1 aEx).1 :=
  (make_decision_deterministic_no_limit reqEx1 aEx reqEx1_within).2

/-- C5 counterexample: on the spec's example bundle (liquidity 500, mint
authority on, 2 hours old, top holder 95, tradeable both ways) the overall
score is below 70, the tier is Medium (not High/Critical) and the in-cap
decision action is Warn (not RequireConfirm/Reject). -/
theorem example_scenario_counterexample :
    ¬ ((analyze_token mintX symX gEx).overall_risk ≥ 70) ∧
    (analyze_token mintX symX gEx).risk_level = SwapRisk.medium ∧
    (make_decision reqEx1 (analyze_token mintX symX gEx)).1.action = SwapAction.warn := by
  refine ⟨?_, aEx_level, ?_⟩
  · show ¬ (aEx.overall_risk ≥ 70)
    rw [aEx_overall]; norm_num
  · show (make_decision reqEx1 aEx).1.action = SwapAction.warn
    rw [make_decision_action, if_neg reqEx1_within, aEx_action]

/-- C5 amended: on the example bundle the scorer actually produces overall
score 50.5 (weighted sum 0.25·50 + 0.25·80 + 0.20·90), risk tier Medium, and
a decision action of Warn — or Limit when the requested amount exceeds the
Medium-tier 2 SOL cap. -/
theorem example_scenario_actual :
    (analyze_token mintX symX gEx).overall_risk = 101/2 ∧
    (analyze_token mintX symX gEx).risk_level = SwapRisk.medium ∧
    ∀ req : SwapRequest,
      (make_decision req (analyze_token mintX symX gEx)).1.action = SwapAction.warn ∨
      (make_decision req (analyze_token mintX symX gEx)).1.action = SwapAction.limit := by
  refine ⟨aEx_overall, aEx_level, ?_⟩
  intro req
  show (make_decision req aEx).1.action = SwapAction.warn ∨
    (make_decision req aEx).1.action = SwapAction.limit
  rw [make_decision_action]
  by_cases h : req.input_amount > position_limits aEx.risk_level ∧
      position_limits aEx.risk_level > 0
  · right; rw [if_pos h]
  · left; rw [if_neg h, aEx_action]

/-- C10: whenever the decision's action is Approve, Warn or Limit the safe
swap parameters are present with slippage max(requested, tier-recommended)
and amount min(requested, tier cap) when the cap is positive (the full
requested amount otherwise); for Reject and RequireConfirm they are None. -/
theorem safe_params_spec (req : SwapRequest) (a : TokenAnalysis) :
    (((make_decision req a).1.action = SwapAction.approve ∨
      (make_decision req a).1.action = SwapAction.warn ∨
      (make_decision req a).1.action = SwapAction.limit) →
      (make_decision req a).1.safe_swap_params = some
        { input_mint := req.input_mint
          output_mint := req.output_mint
          amount := if position_limits a.risk_level > 0
            then min req.input_amount (position_limits a.risk_level)
            else req.input_amount
          slippage_bps := max req.slippage_bps
            ((slippage_recommendations a.risk_level).getD 100)
          max_accounts := some 20 }) ∧
    (((make_decision req a).1.action = SwapAction.reject ∨
      (make_decision req a).1.action = SwapAction.require_confirm) →
      (make_decision req a).1.safe_swap_params = none) := by
  constructor
  · intro h
    rw [make_decision_params, if_pos h]
  · intro h
    rcases h with h | h <;> rw [make_decision_params, h] <;> simp

/-- C10 witness: the parameters of a concrete Warn decision. -/
theorem safe_params_spec_witness :
    (make_decision reqEx1 aEx).1.safe_swap_params = some
      { input_mint := reqEx1.input_mint
        output_mint := reqEx1.output_mint
        amount := if position_limits aEx.risk_level > 0
          then min reqEx1.input_amount (position_limits aEx.risk_level)
          else reqEx1.input_amount
        slippage_bps := max reqEx1.slippage_bps
          ((slippage_recommendations aEx.risk_level).getD 100)
        max_accounts := some 20 } :=
  (safe_params_spec reqEx1 aEx).1
    (Or.inr (Or.inl (by rw [make_decision_action, if_neg reqEx1_within, aEx_action])))

/-- Status field written by execute_evacuation, as a function of the error
and evacuated lists of the same result. -/
theorem execute_status (plan : EvacuationPlan) (dry_run : Bool)
    (revokeErr : DangerousApproval → Option String)
    (tokenErr : WalletAsset → Option String) (solErr : Option String)
    (sol_price : ℚ) :
    (execute_evacuation plan dry_run revokeErr tokenErr solErr sol_price).1.status =
      (if (execute_evacuation plan dry_run revokeErr tokenErr solErr sol_price).1.errors = []
       then EvacuationStatus.completed
       else if (execute_evacuation plan dry_run revokeErr tokenErr solErr sol_price).1.assets_evacuated ≠ []
       then EvacuationStatus.partialDone
       else EvacuationStatus.failed) := rfl

/-- Trace decomposition of execute_evacuation: revocations, then token
transfers, then the native transfer. -/
theorem execute_trace (plan : EvacuationPlan) (dry_run : Bool)
    (revokeErr : DangerousApproval → Option String)
    (tokenErr : WalletAsset → Option String) (solErr : Option String)
    (sol_price : ℚ) :
    (execute_evacuation plan dry_run revokeErr tokenErr solErr sol_price).2 =
      plan.approvals_to_revoke.map (fun ap => EvacOp.revokeAttempt ap.token_mint) ++
      (plan.assets.filter (fun a => a.asset_type ≠ AssetType.sol)).map
        (fun a => EvacOp.tokenTransferAttempt a.symbol) ++
      (run_sol_transfer dry_run solErr
        (plan.assets.filter (fun a => a.asset_type = AssetType.sol)) sol_price).2.2.2.2.2.2 := by
  rfl

/-- Every operation in the native-transfer phase trace is the native-transfer
attempt. -/
theorem sol_trace_sol (dry_run : Bool) (solErr : Option String)
    (solAssets : List WalletAsset) (sol_price : ℚ) :
    ∀ op ∈ (run_sol_transfer dry_run solErr solAssets sol_price).2.2.2.2.2.2,
      op = EvacOp.solTransferAttempt := by
  intro op hop
  unfold run_sol_transfer at hop
  cases solAssets with
  | nil => simp at hop
  | cons s rest =>
    simp only [List.head?_cons] at hop
    split at hop
    · split at hop <;> simpa using hop
    · simp at hop

/-- An element with a property false on the right part of an append sits in
the left part. -/
theorem get_lt_left_of_pred {α : Type} (A B : List α) (p : α → Bool) (i : ℕ)
    (hi : i < (A ++ B).length) (hB : ∀ b ∈ B, p b = false)
    (hp : p ((A ++ B).get ⟨i, hi⟩) = true) : i < A.length := by
  by_contra hcon
  push_neg at hcon
  have hlen : i - A.length < B.length := by
    rw [List.length_append] at hi; omega
  have hEq : (A ++ B).get ⟨i, hi⟩ = B.get ⟨i - A.length, hlen⟩ := by
    simp only [List.get_eq_getElem]
    exact List.getElem_append_right hcon
  rw [hEq] at hp
  have hfalse := hB (B.get ⟨i - A.length, hlen⟩) (List.get_mem B (i - A.length) hlen)
  rw [hfalse] at hp
  exact Bool.noConfusion hp

/-- An element with a property false on the left part of an append sits in
the right part. -/
theorem get_ge_left_of_pred {α : Type} (A B : List α) (p : α → Bool) (j : ℕ)
    (hj : j < (A ++ B).length) (hA : ∀ a ∈ A, p a = false)
    (hp : p ((A ++ B).get ⟨j, hj⟩) = true) : A.length ≤ j := by
  by_contra hcon
  push_neg at hcon
  have hEq : (A ++ B).get ⟨j, hj⟩ = A.get ⟨j, hcon⟩ := by
    simp only [List.get_eq_getElem]
    exact List.getElem_append_left hcon
  rw [hEq] at hp
  have hfalse := hA (A.get ⟨j, hcon⟩) (List.get_mem A j hcon)
  rw [hfalse] at hp
  exact Bool.noConfusion hp

/-- C6 counterexample: a plan with one approval (which succeeds) and one
token asset (whose transfer fails) executes to status Failed even though an
operation — the revocation — succeeded; the claim's reading, under which
Partial covers every mix of successes and failures and Failed requires that
no operation succeeded, is false: only evacuated assets count. -/
theorem failed_status_despite_revoke_success :
    (execute_evacuation planRT false (fun _ => none) (fun _ => some sim_fail_msg) none 150).1.approvals_revoked
        = [apEx.token_mint] ∧
    (execute_evacuation planRT false (fun _ => none) (fun _ => some sim_fail_msg) none 150).1.assets_failed
        = [asset_to_dict tokEx1] ∧
    (execute_evacuation planRT false (fun _ => none) (fun _ => some sim_fail_msg) none 150).1.status
        = EvacuationStatus.failed :=
  ⟨rfl, rfl, rfl⟩

/-- C6 amended: per-operation failures are recorded without aborting the
remaining operations, and the final status is Completed exactly when no error
occurred, Partial exactly when errors occurred and at least one asset was
evacuated, and Failed exactly when errors occurred and no asset was evacuated
(successful revocations do not count); in particular a plan with 3 token
assets where only transfer 2 fails yields exactly 2 entries in
assets_evacuated, 1 entry in assets_failed, and status Partial. -/
theorem evacuation_status_classification :
    (∀ (plan : EvacuationPlan) (dry_run : Bool)
       (revokeErr : DangerousApproval → Option String)
       (tokenErr : WalletAsset → Option String) (solErr : Option String)
       (sol_price : ℚ),
      ((execute_evacuation plan dry_run revokeErr tokenErr solErr sol_price).1.status
          = EvacuationStatus.completed ↔
        (execute_evacuation plan dry_run revokeErr tokenErr solErr sol_price).1.errors = []) ∧
      ((execute_evacuation plan dry_run revokeErr tokenErr solErr sol_price).1.status
          = EvacuationStatus.partialDone ↔
        ((execute_evacuation plan dry_run revokeErr tokenErr solErr sol_price).1.errors ≠ [] ∧
         (execute_evacuation plan dry_run revokeErr tokenErr solErr sol_price).1.assets_evacuated ≠ [])) ∧
      ((execute_evacuation plan dry_run revokeErr tokenErr solErr sol_price).1.status
          = EvacuationStatus.failed ↔
        ((execute_evacuation plan dry_run revokeErr tokenErr solErr sol_price).1.errors ≠ [] ∧
         (execute_evacuation plan dry_run revokeErr tokenErr solErr sol_price).1.assets_evacuated = []))) ∧
    (∀ (plan : EvacuationPlan) (t1 t2 t3 : WalletAsset)
       (tokenErr : WalletAsset → Option String) (e : String) (sol_price : ℚ),
      plan.assets = [t1, t2, t3] → plan.approvals_to_revoke = [] →
      t1.asset_type ≠ AssetType.sol → t2.asset_type ≠ AssetType.sol →
      t3.asset_type ≠ AssetType.sol →
      tokenErr t1 = none → tokenErr t2 = some e → tokenErr t3 = none →
      (execute_evacuation plan false (fun _ => none) tokenErr none sol_price).1.assets_evacuated
          = [asset_to_dict t1, asset_to_dict t3] ∧
      (execute_evacuation plan false (fun _ => none) tokenErr none sol_price).1.assets_failed
          = [asset_to_dict t2] ∧
      (execute_evacuation plan false (fun _ => none) tokenErr none sol_price).1.status
          = EvacuationStatus.partialDone) := by
  constructor
  · intro plan dry_run revokeErr tokenErr solErr sol_price
    by_cases h1 : (execute_evacuation plan dry_run revokeErr tokenErr solErr sol_price).1.errors = []
    · rw [execute_status, if_pos h1]
      refine ⟨by simp [h1], by simp [h1], by simp [h1]⟩
    · by_cases h2 : (execute_evacuation plan dry_run revokeErr tokenErr solErr sol_price).1.assets_evacuated = []
      · rw [execute_status, if_neg h1, if_neg (not_not_intro h2)]
        refine ⟨by simp [h1], by simp [h1, h2], by simp [h1, h2]⟩
      · rw [execute_status, if_neg h1, if_pos h2]
        refine ⟨by simp [h1], by simp [h1, h2], by simp [h1, h2]⟩
  · intro plan t1 t2 t3 tokenErr e sol_price hassets happr ht1 ht2 ht3 he1 he2 he3
    refine ⟨?_, ?_, ?_⟩ <;>
      simp [execute_evacuation, run_revocations, run_token_transfers, run_sol_transfer,
        effectiveErr, hassets, happr, ht1, ht2, ht3, he1, he2, he3]

/-- C6 amended witness: the classification at the concrete 3-token plan where
only the second transfer fails. -/
theorem evacuation_status_classification_witness :
    (execute_evacuation plan3 false (fun _ => none) tokenErr2 none 150).1.assets_evacuated
        = [asset_to_dict tokEx1, asset_to_dict tokEx3] ∧
    (execute_evacuation plan3 false (fun _ => none) tokenErr2 none 150).1.assets_failed
        = [asset_to_dict tokEx2] ∧
    (execute_evacuation plan3 false (fun _ => none) tokenErr2 none 150).1.status
        = EvacuationStatus.partialDone :=
  evacuation_status_classification.2 plan3 tokEx1 tokEx2 tokEx3 tokenErr2 sim_fail_msg 150
    rfl rfl (by decide) (by decide) (by decide)
    (by norm_num [tokenErr2, tokEx1, tokEx2])
    (by norm_num [tokenErr2])
    (by norm_num [tokenErr2, tokEx3, tokEx2])

/-- C7: in every executed evacuation trace, every approval-revocation attempt
comes strictly before every transfer attempt, and every token-transfer
attempt comes strictly before the native-currency transfer attempt. -/
theorem evacuation_ordering (plan : EvacuationPlan) (dry_run : Bool)
    (revokeErr : DangerousApproval → Option String)
    (tokenErr : WalletAsset → Option String) (solErr : Option String)
    (sol_price : ℚ) :
    ∀ (i j : ℕ),
      i < (execute_evacuation plan dry_run revokeErr tokenErr solErr sol_price).2.length →
      j < (execute_evacuation plan dry_run revokeErr tokenErr solErr sol_price).2.length →
      ((isRevoke ((execute_evacuation plan dry_run revokeErr tokenErr solErr sol_price).2.getD i
            EvacOp.solTransferAttempt) = true ∧
        isTransfer ((execute_evacuation plan dry_run revokeErr tokenErr solErr sol_price).2.getD j
            EvacOp.solTransferAttempt) = true) ∨
       (isTokenTransfer ((execute_evacuation plan dry_run revokeErr tokenErr solErr sol_price).2.getD i
            EvacOp.solTransferAttempt) = true ∧
        isSolTransfer ((execute_evacuation plan dry_run revokeErr tokenErr solErr sol_price).2.getD j
            EvacOp.solTransferAttempt) = true)) →
      i < j := by
  intro i j hi hj h
  obtain ⟨R, T, S, htr, hRmem, hTmem, hSmem⟩ :
      ∃ R T S, (execute_evacuation plan dry_run revokeErr tokenErr solErr sol_price).2
          = R ++ (T ++ S) ∧ (∀ op ∈ R, opPhase op = 0) ∧
          (∀ op ∈ T, opPhase op = 1) ∧ (∀ op ∈ S, opPhase op = 2) := by
    refine ⟨_, _, _,
      (execute_trace plan dry_run revokeErr tokenErr solErr sol_price).trans
        (List.append_assoc _ _ _), ?_, ?_, ?_⟩
    · intro op hop
      simp only [List.mem_map] at hop
      obtain ⟨ap, _, rfl⟩ := hop
      rfl
    · intro op hop
      simp only [List.mem_map] at hop
      obtain ⟨a, _, rfl⟩ := hop
      rfl
    · intro op hop
      rw [sol_trace_sol _ _ _ _ op hop]
      rfl
  rcases h with ⟨h1, h2⟩ | ⟨h1, h2⟩
  · rw [htr] at hi hj h1 h2
    rw [List.getD_eq_get _ _ hi] at h1
    rw [List.getD_eq_get _ _ hj] at h2
    have hBfalse : ∀ b ∈ T ++ S, isRevoke b = false := by
      intro b hb
      rcases List.mem_append.mp hb with hb | hb
      · cases b with
        | revokeAttempt m => exact absurd (hTmem _ hb) (by simp [opPhase])
        | tokenTransferAttempt s => rfl
        | solTransferAttempt => rfl
      · cases b with
        | revokeAttempt m => exact absurd (hSmem _ hb) (by simp [opPhase])
        | tokenTransferAttempt s => rfl
        | solTransferAttempt => rfl
    have hAfalse : ∀ a ∈ R, isTransfer a = false := by
      intro a ha
      cases a with
      | revokeAttempt m => rfl
      | tokenTransferAttempt s => exact absurd (hRmem _ ha) (by simp [opPhase])
      | solTransferAttempt => exact absurd (hRmem _ ha) (by simp [opPhase])
    have hi' := get_lt_left_of_pred R (T ++ S) isRevoke i hi hBfalse h1
    have hj' := get_ge_left_of_pred R (T ++ S) isTransfer j hj hAfalse h2
    omega
  · have hassoc : R ++ (T ++ S) = (R ++ T) ++ S := (List.append_assoc R T S).symm
    rw [htr, hassoc] at hi hj h1 h2
    rw [List.getD_eq_get _ _ hi] at h1
    rw [List.getD_eq_get _ _ hj] at h2
    have hBfalse : ∀ b ∈ S, isTokenTransfer b = false := by
      intro b hb
      cases b with
      | revokeAttempt m => rfl
      | tokenTransferAttempt s => exact absurd (hSmem _ hb) (by simp [opPhase])
      | solTransferAttempt => rfl
    have hAfalse : ∀ a ∈ R ++ T, isSolTransfer a = false := by
      intro a ha
      rcases List.mem_append.mp ha with ha | ha
      · cases a with
        | revokeAttempt m => rfl
        | tokenTransferAttempt s => rfl
        | solTransferAttempt => exact absurd (hRmem _ ha) (by simp [opPhase])
      · cases a with
        | revokeAttempt m => rfl
        | tokenTransferAttempt s => rfl
        | solTransferAttempt => exact absurd (hTmem _ ha) (by simp [opPhase])
    have hi' := get_lt_left_of_pred (R ++ T) S isTokenTransfer i hi hBfalse h1
    have hj' := get_ge_left_of_pred (R ++ T) S isSolTransfer j hj hAfalse h2
    rw [List.length_append] at hi' hj'
    omega

/-- C7 witness: the ordering theorem applied at a concrete plan whose trace
is revoke, token transfer, native transfer. -/
theorem evacuation_ordering_witness : (0 : ℕ) < 1 ∧ (1 : ℕ) < 2 := by
  have ht : (execute_evacuation planRTS false (fun _ => none) (fun _ => none) none 150).2
      = [EvacOp.revokeAttempt apEx.token_mint, EvacOp.tokenTransferAttempt tokEx1.symbol,
         EvacOp.solTransferAttempt] := by
    norm_num [execute_evacuation, run_revocations, run_token_transfers, run_sol_transfer,
      effectiveErr, planRTS, apEx, tokEx1, solEx, min_sol_reserve,
      List.filter_cons, List.filter_nil, List.head?_cons,
      (by decide : AssetType.spl_token ≠ AssetType.sol)]
  constructor
  · exact evacuation_ordering planRTS false (fun _ => none) (fun _ => none) none 150 0 1
      (by rw [ht]; norm_num) (by rw [ht]; norm_num)
      (Or.inl ⟨by rw [ht]; rfl, by rw [ht]; rfl⟩)
  · exact evacuation_ordering planRTS false (fun _ => none) (fun _ => none) none 150 1 2
      (by rw [ht]; norm_num) (by rw [ht]; norm_num)
      (Or.inr ⟨by rw [ht]; rfl, by rw [ht]; rfl⟩)

/-- C8 counterexample: evaluate_swap at time 0 computes and caches the
example analysis, but the decision step appends its position-limit warning to
the cached object in place; the cache hit at time 60 (inside the TTL)
performs no recomputation, yet returns an assessment different from the
assessment as it was when computed — the claim's "returns the previously
computed assessment unmodified" is false. -/
theorem cache_hit_returns_mutated :
    (get_token_analysis (evaluate_swap st0 0 reqEx5 gEx).2.1 60 mintX symX gEx).2.2 = false ∧
    (get_token_analysis (evaluate_swap st0 0 reqEx5 gEx).2.1 60 mintX symX gEx).1 ≠
      analyze_token mintX symX gEx := by
  constructor
  · rfl
  · intro h
    have h' : (make_decision reqEx5 aEx).2 = aEx := h
    have hw := congrArg (fun a => a.warnings.length) h'
    simp only [make_decision_snd, if_pos reqEx5_exceeds, List.length_append,
      List.length_cons, List.length_nil] at hw
    omega

/-- C8 amended: at most one analysis computation per subject within the
5-minute TTL — a lookup within the TTL of the stored timestamp returns the
stored assessment without recomputation (though that stored assessment may
have been modified in place by intervening decision steps), and an absent or
expired entry is recomputed synchronously and re-stored. -/
theorem cache_ttl_behavior (st : GuardState) (now : ℕ) (mint symbol : String)
    (gather : Except String (Option LiquidityData × Option TokenInfo)) :
    (∀ a ts, cacheLookup st.cache mint = some (a, ts) → now - ts < cache_ttl →
      get_token_analysis st now mint symbol gather = (a, st, false)) ∧
    (∀ a ts, cacheLookup st.cache mint = some (a, ts) → ¬ (now - ts < cache_ttl) →
      get_token_analysis st now mint symbol gather =
        (analyze_token mint symbol gather,
         { st with cache := cacheStore st.cache mint (analyze_token mint symbol gather) now },
         true)) ∧
    (cacheLookup st.cache mint = none →
      get_token_analysis st now mint symbol gather =
        (analyze_token mint symbol gather,
         { st with cache := cacheStore st.cache mint (analyze_token mint symbol gather) now },
         true)) := by
  refine ⟨?_, ?_, ?_⟩
  · intro a ts hl ht
    unfold get_token_analysis
    rw [hl]
    simp only [ht, if_true]
  · intro a ts hl ht
    unfold get_token_analysis
    rw [hl]
    simp only [ht, if_false]
  · intro hl
    unfold get_token_analysis
    rw [hl]

/-- C8 amended witness: a cache hit at time 60 on an entry stored at time 0
returns the stored assessment without recomputation. -/
theorem cache_ttl_behavior_witness :
    get_token_analysis stC 60 mintX symX gEx = (aEx, stC, false) :=
  (cache_ttl_behavior stC 60 mintX symX gEx).1 aEx 0 rfl (by decide)

/-- Concentration component computed on present metadata, as a function of
the top-holder percentage. -/
theorem conc_formula (mint symbol : String) (ld : Option LiquidityData) (ti : TokenInfo) :
    (analyze_token mint symbol (.ok (ld, some ti))).concentration_risk =
      (if ti.top_holder_pct.getD 0 > 50 then 90
       else if ti.top_holder_pct.getD 0 > 20 then 60 else 50) := by
  cases ld <;> rfl

/-- Concentration component when metadata is absent. -/
theorem conc_formula_none (mint symbol : String) (ld : Option LiquidityData) :
    (analyze_token mint symbol (.ok (ld, none))).concentration_risk = 50 := by
  cases ld <;> rfl

/-- Liquidity component computed on present liquidity data, as a function of
the reported liquidity. -/
theorem liq_formula (mint symbol : String) (ld : LiquidityData) (ti : Option TokenInfo) :
    (analyze_token mint symbol (.ok (some ld, ti))).liquidity_risk =
      (if ld.estimated_liquidity_usd.getD 0 < min_liquidity_usd then 80
       else if ld.estimated_liquidity_usd.getD 0 < 10000 then 50
       else max 0 (30 - ld.estimated_liquidity_usd.getD 0 / 10000)) := by
  cases ti <;> rfl

/-- Liquidity component when liquidity data is absent. -/
theorem liq_formula_none (mint symbol : String) (ti : Option TokenInfo) :
    (analyze_token mint symbol (.ok (none, ti))).liquidity_risk = 90 := by
  cases ti <;> rfl

/-- C9: holding every other input fixed, a larger top-holder percentage never
yields a smaller concentration component (and the absent-metadata default 50
is a lower bound for every computed value), and a smaller reported liquidity
never yields a smaller liquidity component, across the 1000 / 10000 bucket
boundaries (and the absent-data default 90 is an upper bound for every
computed value). -/
theorem risk_monotonicity :
    (∀ (mint symbol : String) (ld : Option LiquidityData) (ti : TokenInfo) (p1 p2 : ℚ),
      p1 ≤ p2 →
      (analyze_token mint symbol
        (.ok (ld, some { ti with top_holder_pct := some p1 }))).concentration_risk ≤
      (analyze_token mint symbol
        (.ok (ld, some { ti with top_holder_pct := some p2 }))).concentration_risk) ∧
    (∀ (mint symbol : String) (ld : Option LiquidityData) (ti : TokenInfo) (p : ℚ),
      (analyze_token mint symbol (.ok (ld, none))).concentration_risk ≤
      (analyze_token mint symbol
        (.ok (ld, some { ti with top_holder_pct := some p }))).concentration_risk) ∧
    (∀ (mint symbol : String) (ld : LiquidityData) (ti : Option TokenInfo) (u1 u2 : ℚ),
      u1 ≤ u2 →
      (analyze_token mint symbol
        (.ok (some { ld with estimated_liquidity_usd := some u2 }, ti))).liquidity_risk ≤
      (analyze_token mint symbol
        (.ok (some { ld with estimated_liquidity_usd := some u1 }, ti))).liquidity_risk) ∧
    (∀ (mint symbol : String) (ld : LiquidityData) (ti : Option TokenInfo) (u : ℚ),
      (analyze_token mint symbol
        (.ok (some { ld with estimated_liquidity_usd := some u }, ti))).liquidity_risk ≤
      (analyze_token mint symbol (.ok (none, ti))).liquidity_risk) := by
  refine ⟨?_, ?_, ?_, ?_⟩
  · intro mint symbol ld ti p1 p2 hp
    rw [conc_formula, conc_formula]
    simp only [Option.getD_some]
    split_ifs <;> linarith
  · intro mint symbol ld ti p
    rw [conc_formula_none, conc_formula]
    simp only [Option.getD_some]
    split_ifs <;> norm_num
  · intro mint symbol ld ti u1 u2 hu
    rw [liq_formula, liq_formula]
    simp only [Option.getD_some, min_liquidity_usd]
    split_ifs <;>
      first
      | linarith
      | (apply max_le <;> linarith)
      | (exact max_le_max le_rfl (by linarith))
  · intro mint symbol ld ti u
    rw [liq_formula, liq_formula_none]
    simp only [Option.getD_some, min_liquidity_usd]
    split_ifs <;>
      first
      | linarith
      | (apply max_le <;> linarith)

/-- C9 witness: monotonicity applied at concrete percentages 10 and 60. -/
theorem risk_monotonicity_witness :
    (analyze_token mintX symX
      (.ok (none, some { tiEx with top_holder_pct := some 10 }))).concentration_risk ≤
    (analyze_token mintX symX
      (.ok (none, some { tiEx with top_holder_pct := some 60 }))).concentration_risk :=
  risk_monotonicity.1 mintX symX none tiEx 10 60 (by norm_num)

end Guardian
